import Mathlib

/-!
Verification of the escape-sequence decoding core of pypager
(src/pypager/source.py, class PipeSource).

The generator-based parser `PipeSource._parse_corot` is embedded as an
explicit state machine: each `yield` point of the coroutine becomes a
`Mode`, and one `step` of the machine consumes one input character, just
as one `send` into the coroutine does.  The mutable per-instance data
(`token`, `replace_one_token`, `self._attrs`, and the shared
`self._line_tokens` queue that `read_chunk` drains in place) become the
fields of `PState`.  An uncaught Python exception escaping the generator
(the `raise Exception` on a malformed CSI terminator, or an uncaught
`IndexError` inside `_select_graphic_rendition`) kills the generator:
every later `send` raises and no further token is ever produced; this is
embedded as the absorbing `Mode.dead`.
-/

namespace Pypager

/-- prompt_toolkit `Attrs(color, bgcolor, bold, underline, italic, blink,
reverse)`, as constructed by `PipeSource.__init__` and updated via
`_replace`. -/
structure Attrs where
  color : Option String
  bgcolor : Option String
  bold : Bool
  underline : Bool
  italic : Bool
  blink : Bool
  rev : Bool
deriving DecidableEq

/-- The default attributes built in `PipeSource.__init__` and on SGR 0:
`Attrs(color=None, bgcolor=None, bold=False, underline=False,
italic=False, blink=False, reverse=False)`. -/
def defaultAttrs : Attrs := ⟨none, none, false, false, false, false, false⟩

/-- Modelled from the spec: the legacy foreground color table
(`_fg_colors`, the inversion of prompt_toolkit's `FG_ANSI_COLORS`,
which lives outside this repository), mapping the standard SGR
foreground codes to canonical color names. -/
def fg_colors (n : Nat) : Option String :=
  if n = 39 then some "ansidefault"
  else if n = 30 then some "ansiblack"
  else if n = 31 then some "ansidarkred"
  else if n = 32 then some "ansidarkgreen"
  else if n = 33 then some "ansibrown"
  else if n = 34 then some "ansidarkblue"
  else if n = 35 then some "ansipurple"
  else if n = 36 then some "ansiteal"
  else if n = 37 then some "ansilightgray"
  else if n = 90 then some "ansidarkgray"
  else if n = 91 then some "ansired"
  else if n = 92 then some "ansigreen"
  else if n = 93 then some "ansiyellow"
  else if n = 94 then some "ansiblue"
  else if n = 95 then some "ansifuchsia"
  else if n = 96 then some "ansiturquoise"
  else if n = 97 then some "ansiwhite"
  else none

/-- Modelled from the spec: the legacy background color table
(`_bg_colors`, the inversion of prompt_toolkit's `BG_ANSI_COLORS`). -/
def bg_colors (n : Nat) : Option String :=
  if n = 49 then some "ansidefault"
  else if n = 40 then some "ansiblack"
  else if n = 41 then some "ansidarkred"
  else if n = 42 then some "ansidarkgreen"
  else if n = 43 then some "ansibrown"
  else if n = 44 then some "ansidarkblue"
  else if n = 45 then some "ansipurple"
  else if n = 46 then some "ansiteal"
  else if n = 47 then some "ansilightgray"
  else if n = 100 then some "ansidarkgray"
  else if n = 101 then some "ansired"
  else if n = 102 then some "ansigreen"
  else if n = 103 then some "ansiyellow"
  else if n = 104 then some "ansiblue"
  else if n = 105 then some "ansifuchsia"
  else if n = 106 then some "ansiturquoise"
  else if n = 107 then some "ansiwhite"
  else none

/-- Python `'%02x' % n`: lowercase hexadecimal, zero-padded on the left
to at least two digits. -/
def hex2 (n : Nat) : String :=
  let ds := Nat.toDigits 16 n
  String.mk (List.replicate (2 - ds.length) '0' ++ ds)

/-- Modelled from the spec: one entry of the fixed 256-entry RGB palette
(prompt_toolkit's `_256_colors_table.colors`, outside this repository):
16 base colors, a 6x6x6 color cube, and a 24-step grayscale ramp. -/
def palette (i : Nat) : Nat × Nat × Nat :=
  if i = 0 then (0, 0, 0)
  else if i = 1 then (205, 0, 0)
  else if i = 2 then (0, 205, 0)
  else if i = 3 then (205, 205, 0)
  else if i = 4 then (0, 0, 238)
  else if i = 5 then (205, 0, 205)
  else if i = 6 then (0, 205, 205)
  else if i = 7 then (229, 229, 229)
  else if i = 8 then (127, 127, 127)
  else if i = 9 then (255, 0, 0)
  else if i = 10 then (0, 255, 0)
  else if i = 11 then (255, 255, 0)
  else if i = 12 then (92, 92, 255)
  else if i = 13 then (255, 0, 255)
  else if i = 14 then (0, 255, 255)
  else if i = 15 then (255, 255, 255)
  else if i < 232 then
    let j := i - 16
    let lvl := fun c => if c = 0 then 0 else 55 + 40 * c
    (lvl (j / 36), lvl ((j / 6) % 6), lvl (j % 6))
  else (8 + 10 * (i - 232), 8 + 10 * (i - 232), 8 + 10 * (i - 232))

/-- The `_256_colors` dictionary of source.py: its keys are `1024 + i`
for the 256 palette indices `i`, so `_256_colors.get(1024 + m)` yields a
hex string for `m < 256` and `None` otherwise. -/
def colors_256 (m : Nat) : Option String :=
  if m < 256 then
    some (hex2 (palette m).1 ++ hex2 (palette m).2.1 ++ hex2 (palette m).2.2)
  else none

/-- The `replace` dictionary accumulated by `_select_graphic_rendition`
before the final `self._attrs._replace(**replace)`.  A field holds
`none` when the key is absent; the color fields hold an inner `Option`
because `_256_colors.get` can itself deliver `None`. -/
structure Replace where
  color : Option (Option String)
  bgcolor : Option (Option String)
  bold : Option Bool
  underline : Option Bool
  italic : Option Bool
  blink : Option Bool
  rev : Option Bool
deriving DecidableEq

/-- The empty `replace` dictionary. -/
def emptyReplace : Replace := ⟨none, none, none, none, none, none, none⟩

/-- `Attrs._replace(**replace)`: each key present in the dictionary
overrides the corresponding field. -/
def applyReplace (a : Attrs) (r : Replace) : Attrs :=
  ⟨r.color.getD a.color, r.bgcolor.getD a.bgcolor, r.bold.getD a.bold,
   r.underline.getD a.underline, r.italic.getD a.italic,
   r.blink.getD a.blink, r.rev.getD a.rev⟩

/-- The `while attrs:` loop of `_select_graphic_rendition`.  The Python
code reverses the parameter list and pops from the end, i.e. it walks
the parameters in their original order, which is the list recursion
here.  `attrs.pop()` on an exhausted list raises an uncaught
`IndexError` (result `none`) except inside the true-color branch, whose
`try`/`except IndexError: pass` consumes whatever parameters remain and
continues; `attr == 0` clears the dictionary and resets `self._attrs`
to the defaults. -/
def sgrLoop : List Nat → Attrs → Replace → Option (Attrs × Replace)
  | [], base, repl => some (base, repl)
  | attr :: rest, base, repl =>
    if (fg_colors attr).isSome then
      sgrLoop rest base { repl with color := some (fg_colors attr) }
    else if (bg_colors attr).isSome then
      sgrLoop rest base { repl with bgcolor := some (bg_colors attr) }
    else if attr = 1 then sgrLoop rest base { repl with bold := some true }
    else if attr = 3 then sgrLoop rest base { repl with italic := some true }
    else if attr = 4 then sgrLoop rest base { repl with underline := some true }
    else if attr = 5 then sgrLoop rest base { repl with blink := some true }
    else if attr = 6 then sgrLoop rest base { repl with blink := some true }
    else if attr = 7 then sgrLoop rest base { repl with rev := some true }
    else if attr = 22 then sgrLoop rest base { repl with bold := some false }
    else if attr = 23 then sgrLoop rest base { repl with italic := some false }
    else if attr = 24 then sgrLoop rest base { repl with underline := some false }
    else if attr = 25 then sgrLoop rest base { repl with blink := some false }
    else if attr = 27 then sgrLoop rest base { repl with rev := some false }
    else if attr = 0 then sgrLoop rest defaultAttrs emptyReplace
    else if attr = 38 ∨ attr = 48 then
      match rest with
      | [] => none
      | n :: rest2 =>
        if n = 5 then
          match rest2 with
          | [] => none
          | m :: rest3 =>
            if attr = 38 then
              sgrLoop rest3 base { repl with color := some (colors_256 m) }
            else
              sgrLoop rest3 base { repl with bgcolor := some (colors_256 m) }
        else if n = 2 then
          match rest2 with
          | r :: g :: b :: rest3 =>
            if attr = 38 then
              sgrLoop rest3 base
                { repl with color := some (some (hex2 r ++ hex2 g ++ hex2 b)) }
            else
              sgrLoop rest3 base
                { repl with bgcolor := some (some (hex2 r ++ hex2 g ++ hex2 b)) }
          | _ => some (base, repl)
        else sgrLoop rest2 base repl
    else sgrLoop rest base repl

/-- `PipeSource._select_graphic_rendition(params)` applied to a current
`Attrs` value: an empty parameter list is treated as `[0]`; the result
is `none` when the Python code would let an `IndexError` escape. -/
def select_graphic_rendition (a : Attrs) (ps : List Nat) : Option Attrs :=
  let ps := if ps.isEmpty then [0] else ps
  match sgrLoop ps a emptyReplace with
  | some (base, repl) => some (applyReplace base repl)
  | none => none

/-- The values the coroutine's `token` variable ranges over: the plain
default `Token`, the overstrike tokens `Token.Standout` and
`Token.Standout2`, and the colored token `('C',) + self._attrs` built
after an SGR sequence. -/
inductive Tok where
  | plain
  | standout
  | standout2
  | colored (a : Attrs)
deriving DecidableEq

/-- The resume points of the `_parse_corot` coroutine: the top of the
main loop (`normal`), the `square_bracket = yield` after an ESC
(`afterEsc`), the inner CSI loop with its accumulator string and
completed parameters (`inCSI`), and the absorbing state of a generator
killed by an escaped exception (`dead`). -/
inductive Mode where
  | normal
  | afterEsc
  | inCSI (current : List Char) (params : List Nat)
  | dead
deriving DecidableEq

/-- The mutable state of one `PipeSource` decoder: the coroutine resume
point, the `token` and `replace_one_token` variables, `self._attrs`,
and the `self._line_tokens` queue (shared between the coroutine, which
appends and pops, and `read_chunk`, which empties it in place). -/
structure PState where
  mode : Mode
  token : Tok
  replaceOne : Bool
  attrs : Attrs
  lineTokens : List (Tok × Char)
deriving DecidableEq

/-- Backspace, `'\b'` = 0x08. -/
def bsChar : Char := Char.ofNat 8

/-- Escape, `'\x1b'` = 0x1B. -/
def escChar : Char := Char.ofNat 27

/-- The single-byte CSI introducer `'\x9b'`. -/
def csiChar : Char := Char.ofNat 155

/-- ASCII digit test; Python's `str.isdigit` additionally accepts other
Unicode digit characters, which the ANSI escape sequences handled here
never contain. -/
def pyIsDigit (c : Char) : Bool := 48 ≤ c.toNat && c.toNat ≤ 57

/-- Numeric value of one ASCII digit. -/
def digitVal (c : Char) : Nat := c.toNat - 48

/-- Python `int(current or 0)` for the accumulated digit string. -/
def strVal (cur : List Char) : Nat :=
  cur.foldl (fun n c => 10 * n + digitVal c) 0

/-- One `send` of a character into `_parse_corot`, at each resume point:
  * `normal` + backspace: pop the last queued token (if any), set
    `replace_one_token`, and choose `Standout2` or `Standout` from the
    popped character; with an empty queue nothing happens;
  * `normal` + ESC: wait for the next character; `normal` + 0x9b: enter
    the CSI loop; any other character is appended to the queue with the
    current `token`, which is reset to the plain `Token` when
    `replace_one_token` is set (the flag itself is never cleared);
  * `afterEsc`: `'['` enters the CSI loop with fresh accumulators,
    anything else silently resumes the main loop;
  * `inCSI`: digits extend the accumulator; otherwise the accumulator is
    pushed, clamped by `min(int(current or 0), 9999)`; `';'` continues
    the loop, `'m'` applies `_select_graphic_rendition` and rebuilds
    `token` from the new attributes, and any other character raises,
    killing the generator (as does an `IndexError` escaping the SGR
    resolver);
  * `dead`: a killed generator consumes nothing and emits nothing. -/
def step (s : PState) (c : Char) : PState :=
  match s.mode with
  | Mode.dead => s
  | Mode.normal =>
    if c = bsChar then
      match s.lineTokens.getLast? with
      | some (_, lastChar) =>
        { s with lineTokens := s.lineTokens.dropLast,
                 replaceOne := true,
                 token := if lastChar = '_' then Tok.standout2 else Tok.standout }
      | none => s
    else if c = escChar then { s with mode := Mode.afterEsc }
    else if c = csiChar then { s with mode := Mode.inCSI [] [] }
    else
      { s with lineTokens := s.lineTokens ++ [(s.token, c)],
               token := if s.replaceOne then Tok.plain else s.token }
  | Mode.afterEsc =>
    if c = '[' then { s with mode := Mode.inCSI [] [] }
    else { s with mode := Mode.normal }
  | Mode.inCSI cur ps =>
    if pyIsDigit c then { s with mode := Mode.inCSI (cur ++ [c]) ps }
    else
      let ps2 := ps ++ [min (strVal cur) 9999]
      if c = ';' then { s with mode := Mode.inCSI [] ps2 }
      else if c = 'm' then
        match select_graphic_rendition s.attrs ps2 with
        | some a => { s with mode := Mode.normal, attrs := a, token := Tok.colored a }
        | none => { s with mode := Mode.dead }
      else { s with mode := Mode.dead }

/-- The decoder state built by `PipeSource.__init__`. -/
def initState : PState :=
  { mode := Mode.normal, token := Tok.plain, replaceOne := false,
    attrs := defaultAttrs, lineTokens := [] }

/-- Feeding a whole character batch, one `send` per character. -/
def processChars (s : PState) (cs : List Char) : PState := cs.foldl step s

/-- `PipeSource.read_chunk` on one batch of decoded characters: feed
every character to the parser, then return the queued tokens and empty
the queue in place. -/
def read_chunk (s : PState) (cs : List Char) : PState × List (Tok × Char) :=
  let t := processChars s cs
  ({ t with lineTokens := [] }, t.lineTokens)

/-- The concatenation of the token lists drained by successive
`read_chunk` calls on successive batches. -/
def drainBatches : PState → List (List Char) → List (Tok × Char)
  | _, [] => []
  | s, b :: bs =>
    let r := read_chunk s b
    r.2 ++ drainBatches r.1 bs

/-- `defaultAttrs` with bold set, the attributes after SGR 1. -/
def boldAttrs : Attrs := { defaultAttrs with bold := true }

/-- `defaultAttrs` with the legacy red foreground, the attributes after
SGR 31. -/
def redAttrs : Attrs := { defaultAttrs with color := some "ansidarkred" }

/-- The parameter lists of every `inCSI` state hold only clamped values. -/
def paramsBounded (s : PState) : Prop :=
  ∀ cur ps, s.mode = Mode.inCSI cur ps → ∀ p ∈ ps, p ≤ 9999

/-- Feeding a batch is folding `step` over it. -/
theorem processChars_append (s : PState) (xs ys : List Char) :
    processChars s (xs ++ ys) = processChars (processChars s xs) ys := by
  simp [processChars, List.foldl_append]

/-- For any character other than backspace, one parser step never reads
the token queue: it only appends, so the queue contents can be split
off. -/
theorem step_frame (m : Mode) (t : Tok) (ro : Bool) (a : Attrs)
    (q : List (Tok × Char)) (c : Char) (hc : c ≠ bsChar) :
    step ⟨m, t, ro, a, q⟩ c =
      { step ⟨m, t, ro, a, []⟩ c with
        lineTokens := q ++ (step ⟨m, t, ro, a, []⟩ c).lineTokens } := by
  cases m with
  | normal =>
    by_cases h1 : c = escChar
    · subst h1; simp [step, hc]
    · by_cases h2 : c = csiChar
      · subst h2; simp [step, hc, h1]
      · simp [step, hc, h1, h2]
  | afterEsc =>
    by_cases h : c = '[' <;> simp [step, h]
  | inCSI cur ps =>
    by_cases h1 : pyIsDigit c
    · simp [step, h1]
    · by_cases h2 : c = ';'
      · subst h2; simp [step, h1]
      · by_cases h3 : c = 'm'
        · subst h3
          cases hs : select_graphic_rendition a (ps ++ [min (strVal cur) 9999]) <;>
            simp [step, h1, h2, hs]
        · simp [step, h1, h2, h3]
  | dead => simp [step]

/-- Queue-framing extended to whole backspace-free batches. -/
theorem processChars_frame : ∀ (cs : List Char), (∀ c ∈ cs, c ≠ bsChar) →
    ∀ (m : Mode) (t : Tok) (ro : Bool) (a : Attrs) (q : List (Tok × Char)),
    processChars ⟨m, t, ro, a, q⟩ cs =
      { processChars ⟨m, t, ro, a, []⟩ cs with
        lineTokens := q ++ (processChars ⟨m, t, ro, a, []⟩ cs).lineTokens }
  | [], _, m, t, ro, a, q => by simp [processChars]
  | c :: cs, h, m, t, ro, a, q => by
    have hc : c ≠ bsChar := h c (List.mem_cons_self c cs)
    have hcs : ∀ x ∈ cs, x ≠ bsChar := fun x hx => h x (List.mem_cons_of_mem c hx)
    rcases hstep : step ⟨m, t, ro, a, []⟩ c with ⟨m1, t1, ro1, a1, q1⟩
    have h1 := step_frame m t ro a q c hc
    rw [hstep] at h1
    have IH1 := processChars_frame cs hcs m1 t1 ro1 a1 (q ++ q1)
    have IH2 := processChars_frame cs hcs m1 t1 ro1 a1 q1
    simp only [processChars, List.foldl_cons] at *
    rw [h1, hstep, IH1, IH2]
    simp

/-- On backspace-free input, the concatenation of the per-batch drains
is the token list produced by one pass over the joined stream. -/
theorem drainBatches_join : ∀ (bss : List (List Char)),
    (∀ b ∈ bss, ∀ c ∈ b, c ≠ bsChar) →
    ∀ (m : Mode) (t : Tok) (ro : Bool) (a : Attrs),
    drainBatches ⟨m, t, ro, a, []⟩ bss =
      (processChars ⟨m, t, ro, a, []⟩ bss.flatten).lineTokens
  | [], _, m, t, ro, a => by simp [drainBatches, processChars]
  | b :: bs, h, m, t, ro, a => by
    have hb : ∀ c ∈ b, c ≠ bsChar := h b (List.mem_cons_self b bs)
    have hbs : ∀ b' ∈ bs, ∀ c ∈ b', c ≠ bsChar :=
      fun b' hb' => h b' (List.mem_cons_of_mem b hb')
    have hjoin : ∀ c ∈ bs.flatten, c ≠ bsChar := by
      intro c hcj
      rcases List.mem_flatten.1 hcj with ⟨b', hb', hcb⟩
      exact hbs b' hb' c hcb
    rcases hP : processChars ⟨m, t, ro, a, []⟩ b with ⟨m1, t1, ro1, a1, q1⟩
    have IH := drainBatches_join bs hbs m1 t1 ro1 a1
    have hframe := processChars_frame bs.flatten hjoin m1 t1 ro1 a1 q1
    simp only [drainBatches, read_chunk, List.flatten_cons]
    rw [hP, processChars_append, hP, hframe, IH]

/-- Every parser step keeps the completed CSI parameter list clamped:
whatever is pushed went through `min(int(current or 0), 9999)`. -/
theorem paramsBounded_step (s : PState) (c : Char) (h : paramsBounded s) :
    paramsBounded (step s c) := by
  obtain ⟨m, t, ro, a, q⟩ := s
  cases m with
  | normal =>
    intro cur ps hmode
    by_cases h1 : c = bsChar
    · subst h1
      simp only [step] at hmode
      rcases hq : List.getLast? q with _ | ⟨p⟩ <;> rw [hq] at hmode <;>
        simp at hmode
    · by_cases h2 : c = escChar
      · subst h2; simp [step, h1] at hmode
      · by_cases h3 : c = csiChar
        · subst h3
          simp [step, h1, h2] at hmode
          simp [hmode]
        · simp [step, h1, h2, h3] at hmode
  | afterEsc =>
    intro cur ps hmode
    by_cases h1 : c = '['
    · subst h1
      simp [step] at hmode
      simp [hmode]
    · simp [step, h1] at hmode
  | inCSI cur0 ps0 =>
    have hps0 : ∀ p ∈ ps0, p ≤ 9999 := h cur0 ps0 rfl
    intro cur ps hmode
    by_cases h1 : pyIsDigit c
    · simp [step, h1] at hmode
      intro p hp
      exact hps0 p (hmode.2 ▸ hp)
    · by_cases h2 : c = ';'
      · subst h2
        simp [step, h1] at hmode
        intro p hp
        rw [← hmode.2] at hp
        rcases List.mem_append.1 hp with hold | hnew
        · exact hps0 p hold
        · simp at hnew
          subst hnew
          exact Nat.min_le_right _ _
      · by_cases h3 : c = 'm'
        · subst h3
          rcases hs : select_graphic_rendition a (ps0 ++ [min (strVal cur0) 9999]) with _ | a2 <;>
            simp [step, h1, h2, hs] at hmode
        · simp [step, h1, h2, h3] at hmode
  | dead =>
    intro cur ps hmode
    simp [step] at hmode

/-- The clamping invariant holds along any fed character sequence. -/
theorem paramsBounded_processChars :
    ∀ (cs : List Char) (s : PState), paramsBounded s →
      paramsBounded (processChars s cs)
  | [], _, h => h
  | c :: cs, s, h =>
    paramsBounded_processChars cs (step s c) (paramsBounded_step s c h)

/-- The fresh decoder has no CSI parameters at all. -/
theorem paramsBounded_init : paramsBounded initState := by
  intro cur ps hmode
  simp [initState] at hmode

/-- C1: evaluation of the code at the failing input.  Feeding the CSI
sequence ESC [ 2 J, whose final byte J is neither a digit nor one of
`;` and `m`, executes `raise Exception(str(char))` inside the parser
coroutine and kills it (the absorbing dead state, from which no further
token is ever emitted), instead of discarding the partial sequence and
resuming in the Normal state at the next character. -/
theorem malformed_csi_terminator_kills_decoder :
    (processChars initState [escChar, '[', '2', 'J']).mode = Mode.dead := by
  decide

/-- C2 counterexample: the stream "ab\bc" drained as the two batches
"ab" and "\bc" yields the three default tokens a, b, c, while the whole
stream in one batch yields a and a standout c, because `read_chunk`
empties in place the very queue the backspace handler pops its
overstruck token from. -/
theorem split_invariance_counterexample :
    drainBatches initState [['a', 'b'], [bsChar, 'c']] ≠
      drainBatches initState [['a', 'b', bsChar, 'c']] := by
  decide

/-- C2 amended: for every input stream containing no backspace character
and for every way of partitioning it into successive feed batches, the
concatenation of the token sequences drained after each batch equals the
token sequence drained after feeding the whole stream in a single
batch. -/
theorem split_invariance_without_backspace (bss : List (List Char))
    (h : ∀ b ∈ bss, ∀ c ∈ b, c ≠ bsChar) :
    drainBatches initState bss = drainBatches initState [bss.flatten] := by
  have h2 : ∀ b ∈ [bss.flatten], ∀ c ∈ b, c ≠ bsChar := by
    intro b hb c hc
    simp only [List.mem_singleton] at hb
    subst hb
    rcases List.mem_flatten.1 hc with ⟨b', hb', hcb⟩
    exact h b' hb' c hcb
  have e1 := drainBatches_join bss h Mode.normal Tok.plain false defaultAttrs
  have e2 := drainBatches_join [bss.flatten] h2 Mode.normal Tok.plain false defaultAttrs
  show drainBatches ⟨Mode.normal, Tok.plain, false, defaultAttrs, []⟩ bss =
    drainBatches ⟨Mode.normal, Tok.plain, false, defaultAttrs, []⟩ [bss.flatten]
  rw [e1, e2]
  simp

/-- C2 witness: the amended theorem applied to a concrete two-batch
split of a backspace-free stream. -/
theorem split_invariance_without_backspace_witness :
    drainBatches initState [['a'], ['b']] =
      drainBatches initState [[['a'], ['b']].flatten] :=
  split_invariance_without_backspace [['a'], ['b']] (by decide)

/-- C3: evaluation of the code at a failing input.  After ESC [ 1 m the
persistent attributes are bold and a, b are emitted bold; the overstrike
backspace then replaces the token variable without saving it, and the
never-cleared `replace_one_token` flag resets it to the plain default
after one character, so the final d is emitted with the default style
even though the persistent attributes are still bold and no SGR sequence
or reset intervened. -/
theorem overstrike_destroys_persistent_style :
    (processChars initState
        [escChar, '[', '1', 'm', 'a', 'b', bsChar, 'c', 'd']).lineTokens =
      [(Tok.colored boldAttrs, 'a'), (Tok.standout, 'c'), (Tok.plain, 'd')] ∧
    (processChars initState
        [escChar, '[', '1', 'm', 'a', 'b', bsChar, 'c', 'd']).attrs = boldAttrs := by
  decide

/-- C4: evaluation of the code at a failing input.  The backspace
override is consumed by b as claimed, but `replace_one_token` is never
cleared: after the later SGR 31 sequence the character c is emitted red,
and the still-set flag then resets the token to the plain default, so d
is emitted with the default style instead of the current persistent red
style. -/
theorem override_flag_never_cleared :
    (processChars initState
        ['a', bsChar, 'b', escChar, '[', '3', '1', 'm', 'c', 'd']).lineTokens =
      [(Tok.standout, 'b'), (Tok.colored redAttrs, 'c'), (Tok.plain, 'd')] := by
  decide

/-- C5 counterexample: the 256-color form 38;5 whose palette index is
missing does not skip the color change and continue: the `attrs.pop()`
fetching the index raises an uncaught IndexError (result none), so the
claim fails for the 256-color form. -/
theorem truncated_256color_form_raises :
    select_graphic_rendition defaultAttrs [38, 5] = none := by
  decide

/-- C5 amended: only the truecolor form is protected.  When 38/48;2 has
fewer than the three needed following parameters the resolver skips the
color change, keeps the prior style and succeeds; but the 256-color form
38/48;5 with its index missing, and a bare trailing 38/48, raise an
uncaught IndexError. -/
theorem truncated_color_parameters_amended (a : Attrs) (attr : Nat)
    (h : attr = 38 ∨ attr = 48) :
    (∀ rest : List Nat, rest.length < 3 →
        select_graphic_rendition a (attr :: 2 :: rest) = some a) ∧
    select_graphic_rendition a [attr, 5] = none ∧
    select_graphic_rendition a [attr] = none := by
  rcases h with h | h <;> subst h <;>
    refine ⟨?_, rfl, rfl⟩ <;>
    intro rest hr <;>
    match rest, hr with
    | [], _ => rfl
    | [r], _ => rfl
    | [r, g], _ => rfl

/-- C5 witness: the amended theorem instantiated at a concrete truncated
truecolor sequence, which keeps the prior style. -/
theorem truncated_color_parameters_amended_witness :
    select_graphic_rendition defaultAttrs (38 :: 2 :: [10, 20]) =
      some defaultAttrs :=
  (truncated_color_parameters_amended defaultAttrs 38 (Or.inl rfl)).1
    [10, 20] (by decide)

/-- C6: in the Normal state with an empty token queue, feeding a
backspace is a complete no-op: the state is unchanged, so nothing is
emitted, no style state changes, and no error is raised. -/
theorem backspace_empty_queue_noop (s : PState) (hm : s.mode = Mode.normal)
    (hq : s.lineTokens = []) : step s bsChar = s := by
  obtain ⟨m, t, ro, a, q⟩ := s
  simp only at hm hq
  subst hm
  subst hq
  simp [step]

/-- C6 witness: the no-op at the freshly initialized decoder. -/
theorem backspace_empty_queue_noop_witness : step initState bsChar = initState :=
  backspace_empty_queue_noop initState rfl rfl

/-- C7: from the Normal state, ESC followed by any character other than
`[` emits no token, raises no error, and returns the decoder to the
Normal state: the whole state is exactly as before. -/
theorem unsupported_escape_ignored (s : PState) (c : Char)
    (hm : s.mode = Mode.normal) (hc : c ≠ '[') :
    processChars s [escChar, c] = s := by
  obtain ⟨m, t, ro, a, q⟩ := s
  simp only at hm
  subst hm
  have e1 : escChar ≠ bsChar := by decide
  have e2 : step (⟨Mode.normal, t, ro, a, q⟩ : PState) escChar =
      ⟨Mode.afterEsc, t, ro, a, q⟩ := by
    simp [step, e1]
  show step (step ⟨Mode.normal, t, ro, a, q⟩ escChar) c =
    (⟨Mode.normal, t, ro, a, q⟩ : PState)
  rw [e2]
  simp [step, hc]

/-- C7 witness: ESC x on the fresh decoder is silently ignored. -/
theorem unsupported_escape_ignored_witness :
    processChars initState [escChar, 'x'] = initState :=
  unsupported_escape_ignored initState 'x' rfl (by decide)

/-- C8: on the default-style decoder, CSI 38;2;10;20;30 m followed by w
produces exactly one token, w with truecolor foreground hex 0a141e. -/
theorem truecolor_foreground_hex :
    (processChars initState
        [escChar, '[', '3', '8', ';', '2', ';', '1', '0', ';', '2', '0',
         ';', '3', '0', 'm', 'w']).lineTokens =
      [(Tok.colored { defaultAttrs with color := some "0a141e" }, 'w')] := by
  decide

/-- C9: in any reachable CSI state, a ';' pushes the accumulated value
clamped by `min(int(current or 0), 9999)` and resets the accumulator,
and the full parameter list the SGR resolver would receive at the
terminator (the completed parameters plus this final clamped push)
consists only of values at most 9999. -/
theorem csi_push_clamped (cs : List Char) (cur : List Char) (ps : List Nat)
    (h : (processChars initState cs).mode = Mode.inCSI cur ps) :
    (step (processChars initState cs) ';').mode =
      Mode.inCSI [] (ps ++ [min (strVal cur) 9999]) ∧
    ∀ p ∈ ps ++ [min (strVal cur) 9999], p ≤ 9999 := by
  have hb : ∀ p ∈ ps, p ≤ 9999 :=
    paramsBounded_processChars cs initState paramsBounded_init cur ps h
  constructor
  · revert h
    generalize processChars initState cs = S
    intro h
    obtain ⟨m, t, ro, a, q⟩ := S
    simp only at h
    subst h
    have hd : pyIsDigit ';' = false := by decide
    simp [step, hd]
  · intro p hp
    rcases List.mem_append.1 hp with hold | hnew
    · exact hb p hold
    · simp only [List.mem_singleton] at hnew
      subst hnew
      exact Nat.min_le_right _ _

/-- C9 witness: a five-digit accumulator 12345, reached by an actual
input, is pushed as the clamped parameter 9999. -/
theorem csi_push_clamped_witness :
    (step (processChars initState [escChar, '[', '1', '2', '3', '4', '5']) ';').mode =
      Mode.inCSI [] ([] ++ [min (strVal ['1', '2', '3', '4', '5']) 9999]) ∧
    ∀ p ∈ ([] : List Nat) ++ [min (strVal ['1', '2', '3', '4', '5']) 9999],
      p ≤ 9999 :=
  csi_push_clamped [escChar, '[', '1', '2', '3', '4', '5']
    ['1', '2', '3', '4', '5'] [] (by decide)

/-- C10: an out-of-range palette index N (256 up to the clamp limit
9999) in SGR 38;5;N or 48;5;N does not fail: it sets the corresponding
foreground or background color to the unset value rather than to any
palette entry. -/
theorem out_of_range_palette_index_unsets_color (a : Attrs) (n : Nat)
    (hlo : 256 ≤ n) (hhi : n ≤ 9999) :
    select_graphic_rendition a [38, 5, n] = some { a with color := none } ∧
    select_graphic_rendition a [48, 5, n] = some { a with bgcolor := none } := by
  have hc : colors_256 n = none := by
    unfold colors_256
    rw [if_neg (by omega)]
  constructor
  · show (match sgrLoop [38, 5, n] a emptyReplace with
      | some (base, repl) => some (applyReplace base repl)
      | none => none) = some { a with color := none }
    show (match sgrLoop [] a { emptyReplace with color := some (colors_256 n) } with
      | some (base, repl) => some (applyReplace base repl)
      | none => none) = some { a with color := none }
    simp only [hc]
    rfl
  · show (match sgrLoop [48, 5, n] a emptyReplace with
      | some (base, repl) => some (applyReplace base repl)
      | none => none) = some { a with bgcolor := none }
    show (match sgrLoop [] a { emptyReplace with bgcolor := some (colors_256 n) } with
      | some (base, repl) => some (applyReplace base repl)
      | none => none) = some { a with bgcolor := none }
    simp only [hc]
    rfl

/-- C10 witness: palette index 300 unsets the foreground and background
colors without failing. -/
theorem out_of_range_palette_index_unsets_color_witness :
    select_graphic_rendition defaultAttrs [38, 5, 300] =
      some { defaultAttrs with color := none } ∧
    select_graphic_rendition defaultAttrs [48, 5, 300] =
      some { defaultAttrs with bgcolor := none } :=
  out_of_range_palette_index_unsets_color defaultAttrs 300 (by decide) (by decide)

end Pypager
